import Mathlib

/-!
Verification of the windowing, filtering, merging and reconciliation logic of
the AWS Ground Station CLI contact-control program (`src/contact-control.py`).

Modelling conventions:
* Timestamps and times-of-day are whole seconds (`Int`); the program parses and
  formats `%H:%M:%S%z` strings, which carry whole seconds.
* Python `datetime.timedelta` values are modelled by their total length: in
  whole seconds where the code only ever uses whole seconds, and in whole
  microseconds where the code manipulates the `microseconds` component
  (the partial-contact offset computation).
* Python floor division/modulo (`//`, `%`, timedelta normalisation) map to
  `Int.ediv`/`Int.emod` (Lean's `/` and `%` on `Int`), which agree with
  Python's semantics for positive divisors.
* Elevations (floats in the source) are modelled as rationals.
* API record dictionaries become the structure `ContactRecord`.
-/

namespace ContactControl

/-- A contact/pass record as returned by the Ground Station API
(`list_contacts` / `reserve_contact` responses): the fields of the record
dictionaries that `contact-control.py` reads (`startTime`, `endTime`,
`maximumElevation.value`, `groundStation`, `region`, `contactStatus`,
`contactId`). Times are absolute whole seconds. -/
structure ContactRecord where
  startTime : Int
  endTime : Int
  maxElevation : ℚ
  groundStation : String
  region : String
  contactStatus : String
  contactId : String
deriving DecidableEq

/-- Python `timedelta.seconds` component of a whole-second timedelta of total
length `t` seconds: normalisation puts it in `[0, 86400)`, i.e. it is the
floor-mod of the total length by 86400 (`%` on `Int` is `emod`, which agrees
with Python `%` for a positive modulus). Used by `schedule_contact` at
`contact-control.py:552` as `pass_duration.seconds`. -/
def tdSeconds (t : Int) : Int := t % 86400

/-- Python `timedelta.microseconds` component of a timedelta of total length
`t` microseconds, normalised into `[0, 1000000)` (`contact-control.py:444`). -/
def tdMicroseconds (t : Int) : Int := t % 1000000

/-- Lines 442-445 of `contact-control.py`:
`contact_offset = (pass_duration - contact_duration) / 2` followed by
`contact_offset -= timedelta(microseconds=contact_offset.microseconds)`.
Inputs are whole seconds; the result is in microseconds. Python timedelta
division `/ 2` rounds an exact half-microsecond result to even, but here the
operand is a whole number of seconds, hence an even number of microseconds,
so the division is exact and any division convention agrees. -/
def contactOffsetMicros (passDurSec contactDurSec : Int) : Int :=
  let raw := (passDurSec - contactDurSec) * 1000000 / 2
  raw - tdMicroseconds raw

/-- Line 439 of `contact-control.py`:
`contact_duration = datetime.timedelta(minutes=int(contact_seconds / 60))`,
expressed in seconds. `contact_seconds` is a nonnegative int, so
`int(contact_seconds / 60)` is truncating division by 60. -/
def contactDurationSec (contactSeconds : Nat) : Nat := 60 * (contactSeconds / 60)

/-- Partial-duration branch of `print_selected_contacts`
(`contact-control.py:433-466`): given the pass start and end times-of-day in
seconds and the requested `contact_seconds`, returns the reservation
(start, end) in microseconds-of-day. The code computes the centering offset
from the parsed pass times, then shifts the pass start forward and the pass
end backward by that offset. -/
def resolvePartial (startSec endSec : Int) (contactSeconds : Nat) : Int × Int :=
  let passDurSec := endSec - startSec
  let off := contactOffsetMicros passDurSec (contactDurationSec contactSeconds : Int)
  (startSec * 1000000 + off, endSec * 1000000 - off)

/-- Centering offset in whole seconds: the truncated `contact_offset` is a
whole number of seconds, and the `%H:%M:%S%z` strings through which it is
applied carry whole seconds, so its effect is its microsecond value divided
exactly by 1000000. -/
def contactOffsetSec (passDurSec contactDurSec : Int) : Int :=
  contactOffsetMicros passDurSec contactDurSec / 1000000

/-- UTC time-of-day, in seconds, of an absolute timestamp of `t` whole
seconds: the displayed row shows
`str(_pass["startTime"].astimezone(tz=datetime.timezone.utc)).split(" ")[1]`
(`contact-control.py:153,155`), the time-of-day component. -/
def todSec (t : Int) : Int := t % 86400

/-- UTC day index of an absolute timestamp of `t` whole seconds: the
displayed row's date column is
`str(_pass["startTime"].astimezone(tz=datetime.timezone.utc).date())`
(`contact-control.py:151`), the floor of the timestamp by one day. -/
def dayIndex (t : Int) : Int := t / 86400

/-- Whole-pass branch of `print_selected_contacts`
(`contact-control.py:415-431`) over the displayed row of a pass with absolute
start `S` and end `E`: both reservation datetimes are rebuilt by
`strptime(selected_contact_start_date + " " + <time-of-day>)`, i.e. both the
parsed start and end times-of-day are attached to the start date. -/
def resolveWholeAbs (S E : Int) : Int × Int :=
  (dayIndex S * 86400 + todSec S, dayIndex S * 86400 + todSec E)

/-- Partial branch of `print_selected_contacts`
(`contact-control.py:433-466`) over the displayed row of a pass with absolute
start `S` and end `E`: `pass_duration` is the difference of the parsed
times-of-day (line 435-437), the shifted start/end times are rendered back to
time-of-day strings and so wrap modulo one day (lines 448-451, 458-461), and
both reservation datetimes are rebuilt on the start date (lines 453-456,
463-466). -/
def resolvePartialAbs (S E : Int) (contactSeconds : Nat) : Int × Int :=
  let off := contactOffsetSec (todSec E - todSec S) (contactDurationSec contactSeconds : Int)
  (dayIndex S * 86400 + (todSec S + off) % 86400,
   dayIndex S * 86400 + (todSec E - off) % 86400)

/-- Reservation interval computed by `print_selected_contacts`
(`contact-control.py:401-490`) from the displayed row of a pass with absolute
start `S` and end `E`: the whole-pass branch (lines 415-431) or the partial
branch (lines 433-466). -/
def resolveReservationAbs (wholeDuration : Bool) (S E : Int)
    (contactSeconds : Nat) : Int × Int :=
  if wholeDuration then resolveWholeAbs S E
  else resolvePartialAbs S E contactSeconds

/-- The microsecond-truncation in the source computes exactly
`1000000 * ((d - r) / 2)`, i.e. the floor of half the duration difference,
in whole seconds. -/
theorem contactOffsetMicros_eq (d r : Int) :
    contactOffsetMicros d r = 1000000 * ((d - r) / 2) := by
  simp only [contactOffsetMicros, tdMicroseconds]
  have h1 : (d - r) * 1000000 / 2 = (d - r) * 500000 := by
    rw [Int.mul_ediv_assoc (d - r) (by norm_num : (2 : Int) ∣ 1000000)]
    norm_num
  have h2 : (d - r) * 500000 / 1000000 = (d - r) / 2 := by
    rw [show (1000000 : Int) = 500000 * 2 by norm_num, mul_comm (d - r) 500000]
    exact Int.mul_ediv_mul_of_pos _ _ (by norm_num)
  have h3 := Int.ediv_add_emod ((d - r) * 500000) 1000000
  omega

/-- In whole seconds, the truncated centering offset is the floor of half the
duration difference. -/
theorem contactOffsetSec_eq (d r : Int) :
    contactOffsetSec d r = (d - r) / 2 := by
  rw [contactOffsetSec, contactOffsetMicros_eq]
  exact Int.mul_ediv_cancel_left ((d - r) / 2) (by norm_num)

/-- For a whole-minute request of `m` minutes (`contact_seconds = 60 * m`,
which is how `schedule_contact` builds it at line 541 from the validated
minutes input), the partial reservation is the pass interval shrunk
symmetrically by `1000000 * ((duration - 60*m) / 2)` microseconds. -/
theorem resolvePartial_eq (startSec endSec : Int) (m : Nat) :
    resolvePartial startSec endSec (60 * m) =
      (startSec * 1000000 + 1000000 * ((endSec - startSec - 60 * m) / 2),
       endSec * 1000000 - 1000000 * ((endSec - startSec - 60 * m) / 2)) := by
  have hc : (contactDurationSec (60 * m) : Int) = 60 * m := by
    unfold contactDurationSec
    omega
  simp only [resolvePartial, hc, contactOffsetMicros_eq]

/-- C1 counterexample: the pass 23:55:00-00:05:00 UTC (absolute 86100 s to
86700 s, whole-second duration 600) with a requested 240 s sub-duration is
resolved from the displayed row to 11:58:00-12:02:00 on the start date
(43080 s to 43320 s): `pass_duration` computed from the times-of-day is
-85800 s, the offset is -43020 s, and the resulting interval is neither
contained in the pass interval nor centered. -/
theorem C1_counterexample :
    (60 * 4 : Int) < 86700 - 86100 ∧
    resolvePartialAbs 86100 86700 (60 * 4) = (43080, 43320) ∧
    ¬ (86100 ≤ (resolvePartialAbs 86100 86700 (60 * 4)).1) ∧
    ¬ (|((resolvePartialAbs 86100 86700 (60 * 4)).1 - 86100)
        - (86700 - (resolvePartialAbs 86100 86700 (60 * 4)).2)| ≤ 1) := by
  refine ⟨by decide, by decide, by decide, ?_⟩
  rw [show resolvePartialAbs 86100 86700 (60 * 4) = (43080, 43320) from by decide]
  decide

/-- C1 (amended): for every pass whose start and end fall on the same UTC
date, with whole-second duration `D = E - S` and requested whole-minute
sub-duration `R = 60 * m < D`, the partial-contact reservation interval
computed by `print_selected_contacts` has length within one second of `R`, is
fully contained in the pass interval, and is centered: the offset from pass
start to reservation start equals the offset from reservation end to pass end
within one second; for a pass crossing midnight UTC the reconstruction from
the displayed times-of-day breaks containment and centering (see the
counterexample). -/
theorem C1_partial_reservation_same_day (S E : Int) (m : Nat)
    (hday : S / 86400 = E / 86400) (hR : (60 * m : Int) < E - S) :
    |((resolvePartialAbs S E (60 * m)).2
        - (resolvePartialAbs S E (60 * m)).1) - 60 * m| ≤ 1 ∧
    S ≤ (resolvePartialAbs S E (60 * m)).1 ∧
    (resolvePartialAbs S E (60 * m)).1 ≤ (resolvePartialAbs S E (60 * m)).2 ∧
    (resolvePartialAbs S E (60 * m)).2 ≤ E ∧
    |((resolvePartialAbs S E (60 * m)).1 - S)
        - (E - (resolvePartialAbs S E (60 * m)).2)| ≤ 1 := by
  have hoff : contactOffsetSec (todSec E - todSec S) (contactDurationSec (60 * m) : Int) =
      (E - S - 60 * m) / 2 := by
    rw [contactOffsetSec_eq]
    have harg : todSec E - todSec S - (contactDurationSec (60 * m) : Int) =
        E - S - 60 * m := by
      simp only [todSec, contactDurationSec]
      omega
    rw [harg]
  simp only [resolvePartialAbs, hoff]
  have hw1 : (todSec S + (E - S - 60 * m) / 2) % 86400
      = todSec S + (E - S - 60 * m) / 2 := by
    simp only [todSec]
    omega
  have hw2 : (todSec E - (E - S - 60 * m) / 2) % 86400
      = todSec E - (E - S - 60 * m) / 2 := by
    simp only [todSec]
    omega
  rw [hw1, hw2]
  simp only [todSec, dayIndex, abs_le]
  omega

/-- Witness for C1 (amended): the pass 09:00:00-09:10:00 on day 0 (32400 s to
33000 s) with a 4-minute request. -/
theorem C1_partial_reservation_same_day_witness :
    ((32400 : Int) / 86400 = (33000 : Int) / 86400) ∧ ((60 * 4 : Int) < 33000 - 32400) ∧
    (|((resolvePartialAbs 32400 33000 (60 * 4)).2
        - (resolvePartialAbs 32400 33000 (60 * 4)).1) - 60 * 4| ≤ 1 ∧
    (32400 : Int) ≤ (resolvePartialAbs 32400 33000 (60 * 4)).1 ∧
    (resolvePartialAbs 32400 33000 (60 * 4)).1 ≤ (resolvePartialAbs 32400 33000 (60 * 4)).2 ∧
    (resolvePartialAbs 32400 33000 (60 * 4)).2 ≤ 33000 ∧
    |((resolvePartialAbs 32400 33000 (60 * 4)).1 - 32400)
        - (33000 - (resolvePartialAbs 32400 33000 (60 * 4)).2)| ≤ 1) :=
  ⟨by decide, by decide,
    C1_partial_reservation_same_day 32400 33000 4 (by decide) (by decide)⟩

/-- C5: for a partial-duration contact of `m` whole minutes not exceeding the
pass, `print_selected_contacts` computes
`offset = (pass_duration - requested_duration) / 2` truncated to whole
seconds (floor and truncation agree since the difference is nonnegative),
reservation start = pass start + offset and reservation end = pass end -
offset; the concrete 600 s pass with a 240 s request (offset 180 s,
reservation 09:03:00-09:07:00) is the witness below. -/
theorem C5_partial_offset_formula (startSec endSec : Int) (m : Nat)
    (_h : (60 * m : Int) ≤ endSec - startSec) :
    resolvePartial startSec endSec (60 * m) =
      (startSec * 1000000 + 1000000 * ((endSec - startSec - 60 * m) / 2),
       endSec * 1000000 - 1000000 * ((endSec - startSec - 60 * m) / 2)) :=
  resolvePartial_eq startSec endSec m

/-- Witness for C5: the pass 09:00:00-09:10:00 (32400 s - 33000 s of day,
600 s long) with a 4-minute (240 s) request yields offset 180 s and the
reservation 09:03:00-09:07:00 (32580 s - 32820 s of day). -/
theorem C5_partial_offset_formula_witness :
    ((60 * 4 : Int) ≤ 33000 - 32400) ∧
    resolvePartial 32400 33000 (60 * 4) = (32580 * 1000000, 32820 * 1000000) := by
  refine ⟨by decide, ?_⟩
  rw [C5_partial_offset_formula 32400 33000 4 (by decide)]
  decide

/-- C6 counterexample: for the pass 23:55:00-00:05:00 UTC (absolute 86100 s
to 86700 s), the whole-pass branch rebuilds the end datetime from the start
date plus the parsed end time-of-day (lines 424-427), producing an end one
day before the true pass end: the reservation is (86100, 300), not the pass
interval (86100, 86700). -/
theorem C6_counterexample :
    resolveReservationAbs true 86100 86700 0 ≠ (86100, 86700) ∧
    resolveReservationAbs true 86100 86700 0 = (86100, 86700 - 86400) := by
  decide

/-- C6 (amended): for every selected pass whose start and end fall on the
same UTC date, when the whole-pass option is chosen, the reservation interval
computed by `print_selected_contacts` equals the pass interval verbatim
(reservation start = pass start, reservation end = pass end); for a pass
crossing midnight UTC the rebuilt end datetime lands a day before the true
pass end (see the counterexample). -/
theorem C6_whole_pass_same_day (S E : Int) (contactSeconds : Nat)
    (hday : S / 86400 = E / 86400) :
    resolveReservationAbs true S E contactSeconds = (S, E) := by
  have hbranch : resolveReservationAbs true S E contactSeconds = resolveWholeAbs S E := rfl
  rw [hbranch]
  simp only [resolveWholeAbs, dayIndex, todSec, Prod.mk.injEq]
  omega

/-- Witness for C6 (amended): a pass 00:05:00-00:15:00 on day 0 (300 s to
900 s), whole-pass reservation equals the pass interval. -/
theorem C6_whole_pass_same_day_witness :
    ((300 : Int) / 86400 = (900 : Int) / 86400) ∧
    resolveReservationAbs true 300 900 0 = (300, 900) :=
  ⟨by decide, C6_whole_pass_same_day 300 900 0 (by decide)⟩

/-- One iteration of the pass-selection loop of `schedule_contact`
(`contact-control.py:543-553`): when the pass meets the minimum elevation its
full duration is appended to `pass_duration_list`, and the pass itself is
appended to `suitable_passes` when the whole pass was requested, or when the
`seconds` component of its duration strictly exceeds the requested
`contact_seconds`. The accumulator is `(suitable_passes, pass_duration_list)`. -/
def scheduleFilterStep (minimumElevation : ℚ) (wholeDuration : Bool)
    (contactSeconds : Int) (acc : List ContactRecord × List Int)
    (p : ContactRecord) : List ContactRecord × List Int :=
  if minimumElevation ≤ p.maxElevation then
    if wholeDuration then (acc.1 ++ [p], acc.2 ++ [p.endTime - p.startTime])
    else if contactSeconds < tdSeconds (p.endTime - p.startTime) then
      (acc.1 ++ [p], acc.2 ++ [p.endTime - p.startTime])
    else (acc.1, acc.2 ++ [p.endTime - p.startTime])
  else acc

/-- The pass-selection loop of `schedule_contact`
(`contact-control.py:543-553`), returning
`(suitable_passes, pass_duration_list)`. -/
def scheduleFilter (passList : List ContactRecord) (minimumElevation : ℚ)
    (wholeDuration : Bool) (contactSeconds : Int) :
    List ContactRecord × List Int :=
  passList.foldl (scheduleFilterStep minimumElevation wholeDuration contactSeconds) ([], [])

/-- The admission test the loop actually applies to a pass. -/
def suitablePred (minimumElevation : ℚ) (wholeDuration : Bool)
    (contactSeconds : Int) (p : ContactRecord) : Bool :=
  decide (minimumElevation ≤ p.maxElevation) &&
    (wholeDuration || decide (contactSeconds < tdSeconds (p.endTime - p.startTime)))

/-- Accumulator-generalised characterisation of the selection loop. -/
theorem scheduleFilter_go (e : ℚ) (w : Bool) (c : Int)
    (l : List ContactRecord) (acc : List ContactRecord × List Int) :
    l.foldl (scheduleFilterStep e w c) acc =
      (acc.1 ++ l.filter (suitablePred e w c),
       acc.2 ++ (l.filter (fun p => decide (e ≤ p.maxElevation))).map
         (fun p => p.endTime - p.startTime)) := by
  induction l generalizing acc with
  | nil => simp
  | cons p t ih =>
    rw [List.foldl_cons, ih]
    by_cases h1 : e ≤ p.maxElevation
    · by_cases h2 : c < tdSeconds (p.endTime - p.startTime)
      · cases w <;>
          simp [scheduleFilterStep, suitablePred, List.filter_cons, h1, h2]
      · cases w <;>
          simp [scheduleFilterStep, suitablePred, List.filter_cons, h1, h2]
    · simp [scheduleFilterStep, suitablePred, List.filter_cons, h1]

/-- The `suitable_passes` component is the filter by the loop's own test. -/
theorem scheduleFilter_fst (l : List ContactRecord) (e : ℚ) (w : Bool) (c : Int) :
    (scheduleFilter l e w c).1 = l.filter (suitablePred e w c) := by
  rw [scheduleFilter, scheduleFilter_go]
  simp

/-- The `pass_duration_list` component holds the full durations of exactly the
passes meeting the elevation threshold, in order. -/
theorem scheduleFilter_snd (l : List ContactRecord) (e : ℚ) (w : Bool) (c : Int) :
    (scheduleFilter l e w c).2 =
      (l.filter (fun p => decide (e ≤ p.maxElevation))).map
        (fun p => p.endTime - p.startTime) := by
  rw [scheduleFilter, scheduleFilter_go]
  simp

/-- C2 (amended): the window filter selects exactly the passes whose maximum
elevation is at least the threshold and, when a duration is required, whose
pass-duration `seconds` component (the total length modulo 86400 seconds,
equal to the total length for nonnegative durations under one day) strictly
exceeds the requested duration; with the whole-pass flag it selects exactly
the passes with maximum elevation at least the threshold, never fewer or
more. -/
theorem C2_window_filter_exact (l : List ContactRecord) (e : ℚ) (w : Bool) (c : Int) :
    (scheduleFilter l e w c).1 =
      l.filter (fun p => decide (e ≤ p.maxElevation) &&
        (w || decide (c < tdSeconds (p.endTime - p.startTime)))) ∧
    (scheduleFilter l e true c).1 =
      l.filter (fun p => decide (e ≤ p.maxElevation)) := by
  refine ⟨?_, ?_⟩
  · rw [scheduleFilter_fst]
    rfl
  · rw [scheduleFilter_fst]
    refine List.filter_congr ?_
    intro p _
    simp [suitablePred]

/-- A pass one day and five minutes long: total length 86700 s, but its
timedelta `seconds` component is 300. -/
def longPass : ContactRecord :=
  { startTime := 0, endTime := 86700, maxElevation := 50,
    groundStation := "Ohio 1", region := "us-east-2",
    contactStatus := "AVAILABLE", contactId := "long-pass" }

/-- C2 counterexample: `longPass` has maximum elevation 50 ≥ 40 and total pass
length 86700 s, strictly exceeding the required 600 s, so the claim says it is
selected; the code's filter excludes it because it compares the `seconds`
component (300) instead of the total length. -/
theorem C2_counterexample :
    (40 : ℚ) ≤ longPass.maxElevation ∧
    (600 : Int) < longPass.endTime - longPass.startTime ∧
    (scheduleFilter [longPass] 40 false 600).1 = [] := by
  decide

/-- Empty-result diagnostic of `schedule_contact`
(`contact-control.py:651-659`): the printed longest duration is
`max(pass_duration_list)`. Python `max` of an empty sequence raises
`ValueError`; that failure is modelled by `none` (`List.max?` of `[]`). -/
def diagnosticLongest (l : List ContactRecord) (e : ℚ) (w : Bool) (c : Int) :
    Option Int :=
  (scheduleFilter l e w c).2.max?

/-- A 600 s pass meeting a 40-degree threshold. -/
def shortPass : ContactRecord :=
  { startTime := 0, endTime := 600, maxElevation := 45,
    groundStation := "Oregon 1", region := "us-west-2",
    contactStatus := "AVAILABLE", contactId := "short-pass" }

/-- An 1100 s pass with maximum elevation 10, below a 40-degree threshold. -/
def lowLongPass : ContactRecord :=
  { startTime := 0, endTime := 1100, maxElevation := 10,
    groundStation := "Oregon 1", region := "us-west-2",
    contactStatus := "AVAILABLE", contactId := "low-long-pass" }

/-- C4 counterexample: with threshold 40 and required duration 900 s the
filter is empty, and the claim says the diagnostic reports the longest
duration among all fetched passes (1100 s, from `lowLongPass`); the code
reports 600 s, the longest among only the passes meeting the elevation
threshold, because `pass_duration_list` is filled inside the elevation
test. -/
theorem C4_counterexample :
    (scheduleFilter [shortPass, lowLongPass] 40 false 900).1 = [] ∧
    diagnosticLongest [shortPass, lowLongPass] 40 false 900 = some 600 ∧
    ([shortPass, lowLongPass].map (fun p => p.endTime - p.startTime)).max?
      = some 1100 ∧
    (600 : Int) ≠ 1100 := by
  decide

/-- C4 (amended): whenever the window filter yields an empty result,
`schedule_contact` returns an empty set of suitable passes and the diagnostic
is the maximum pass duration among the fetched passes that meet the elevation
threshold; when no fetched pass meets the threshold, `pass_duration_list` is
empty and the `max()` call fails (here `none`) instead of printing a
diagnostic. -/
theorem C4_diagnostic_over_elevation_passes (l : List ContactRecord) (e : ℚ)
    (w : Bool) (c : Int) (hempty : (scheduleFilter l e w c).1 = []) :
    (scheduleFilter l e w c).1 = [] ∧
    diagnosticLongest l e w c =
      ((l.filter (fun p => decide (e ≤ p.maxElevation))).map
        (fun p => p.endTime - p.startTime)).max? := by
  refine ⟨hempty, ?_⟩
  rw [diagnosticLongest, scheduleFilter_snd]

/-- Witness for C4 (amended) at the concrete two-pass input whose filter
result is empty. -/
theorem C4_diagnostic_over_elevation_passes_witness :
    (scheduleFilter [shortPass, lowLongPass] 40 false 900).1 = [] ∧
    ((scheduleFilter [shortPass, lowLongPass] 40 false 900).1 = [] ∧
      diagnosticLongest [shortPass, lowLongPass] 40 false 900 =
        (([shortPass, lowLongPass].filter
            (fun p => decide ((40 : ℚ) ≤ p.maxElevation))).map
          (fun p => p.endTime - p.startTime)).max?) :=
  ⟨by decide, C4_diagnostic_over_elevation_passes [shortPass, lowLongPass]
    40 false 900 (by decide)⟩

/-- The multi-station merge of `get_contacts` (`contact-control.py:358-378`):
the per-station `contactList` results are collected into `all_passes`,
flattened, and sorted ascending by `startTime`
(`flat_passes.sort(key=..., reverse=False)`; Python `list.sort` is a stable
sort, modelled by the stable `List.mergeSort`). -/
def mergeContacts (perStation : List (List ContactRecord)) : List ContactRecord :=
  perStation.flatten.mergeSort (fun a b => decide (a.startTime ≤ b.startTime))

/-- C3: for every collection of per-ground-station contact lists, the merge in
`get_contacts` produces a single list sorted non-decreasing by start time
whose total record count equals the sum of the input lists' record counts. -/
theorem C3_merge_sorted_count (perStation : List (List ContactRecord)) :
    (mergeContacts perStation).Sorted (fun a b => a.startTime ≤ b.startTime) ∧
    (mergeContacts perStation).length = (perStation.map List.length).sum := by
  constructor
  · have h := @List.sorted_mergeSort ContactRecord
      (fun a b => decide (a.startTime ≤ b.startTime))
      (fun a b c h1 h2 => by
        simp only [decide_eq_true_eq] at h1 h2 ⊢
        omega)
      (fun a b => by
        simp only [Bool.or_eq_true, decide_eq_true_eq]
        omega)
      perStation.flatten
    exact List.Pairwise.imp (fun hab => by simpa using hab) h
  · rw [mergeContacts, List.length_mergeSort, List.length_flatten]

/-- Inner reconciliation loop of `cancel_contact` (`contact-control.py:835-885`)
for one selected row: with `target` the start timestamp parsed from that row,
the loop walks every fetched record and, for each record whose `startTime`
equals `target`, issues one `gs_client.cancel_contact(contactId=...)` call
(there is no break after a match). The result lists the contactIds passed to
the cancellation API, in order. -/
def cancelCallsForRow (records : List ContactRecord) (target : Int) : List String :=
  records.foldl
    (fun calls c => if c.startTime = target then calls ++ [c.contactId] else calls) []

/-- Accumulator-generalised characterisation of the reconciliation loop. -/
theorem cancelCallsForRow_go (records : List ContactRecord) (target : Int)
    (calls : List String) :
    records.foldl
        (fun calls c => if c.startTime = target then calls ++ [c.contactId] else calls)
        calls =
      calls ++ (records.filter (fun c => decide (c.startTime = target))).map
        (fun c => c.contactId) := by
  induction records generalizing calls with
  | nil => simp
  | cons r t ih =>
    rw [List.foldl_cons, ih]
    by_cases h : r.startTime = target
    · simp [List.filter_cons, h]
    · simp [List.filter_cons, h]

/-- The cancellation calls for a row are the contactIds of exactly the fetched
records whose start time equals the row's parsed start time, in fetch order. -/
theorem cancelCallsForRow_eq (records : List ContactRecord) (target : Int) :
    cancelCallsForRow records target =
      (records.filter (fun c => decide (c.startTime = target))).map
        (fun c => c.contactId) := by
  rw [cancelCallsForRow, cancelCallsForRow_go]
  simp

/-- Every issued cancellation call for a row targets the contactId of some
fetched record with the row's start time. -/
theorem mem_cancelCallsForRow (records : List ContactRecord) (target : Int)
    (cid : String) (h : cid ∈ cancelCallsForRow records target) :
    ∃ c ∈ records, c.startTime = target ∧ c.contactId = cid := by
  rw [cancelCallsForRow_eq] at h
  obtain ⟨c, hc, hcid⟩ := List.mem_map.mp h
  obtain ⟨hcm, hct⟩ := List.mem_filter.mp hc
  exact ⟨c, hcm, by simpa using hct, hcid⟩

/-- First of two fetched records sharing start time 1000. -/
def twinA : ContactRecord :=
  { startTime := 1000, endTime := 1600, maxElevation := 45,
    groundStation := "Hawaii 1", region := "us-west-2",
    contactStatus := "SCHEDULED", contactId := "contact-A" }

/-- Second of two fetched records sharing start time 1000. -/
def twinB : ContactRecord :=
  { startTime := 1000, endTime := 1600, maxElevation := 45,
    groundStation := "Ohio 1", region := "us-east-2",
    contactStatus := "SCHEDULED", contactId := "contact-B" }

/-- C7 counterexample: with two fetched records sharing the selected row's
start time 1000, the reconciliation issues two cancellation calls (for both
`contact-A` and `contact-B`), not at most one acting on only the first match:
the loop has no break. -/
theorem C7_counterexample :
    cancelCallsForRow [twinA, twinB] 1000 = ["contact-A", "contact-B"] ∧
    ¬ (cancelCallsForRow [twinA, twinB] 1000).length ≤ 1 := by
  decide

/-- C7 (amended): for every selected row, the reconciliation acts on every
record in the fetched list whose start time matches the row's parsed start
timestamp, issuing exactly one cancellation call per matching record, in
fetch order. -/
theorem C7_cancel_every_match (records : List ContactRecord) (target : Int) :
    cancelCallsForRow records target =
      (records.filter (fun c => decide (c.startTime = target))).map
        (fun c => c.contactId) :=
  cancelCallsForRow_eq records target

/-- C8: for every selected row whose parsed start time matches no fetched
record's start time, no cancellation API call is issued for that row (and the
loop completes without any failing operation). -/
theorem C8_no_match_no_call (records : List ContactRecord) (target : Int)
    (h : ∀ c ∈ records, c.startTime ≠ target) :
    cancelCallsForRow records target = [] := by
  rw [cancelCallsForRow_eq]
  rw [List.filter_eq_nil_iff.mpr]
  · simp
  · intro c hc
    simp [h c hc]

/-- A fetched record whose start time 5 matches no selected row below. -/
def lonerRecord : ContactRecord :=
  { startTime := 5, endTime := 700, maxElevation := 30,
    groundStation := "Ohio 1", region := "us-east-2",
    contactStatus := "SCHEDULED", contactId := "contact-C" }

/-- Witness for C8: a row parsing to start time 7 matches no record in the
fetched list `[lonerRecord]`, and no cancellation call is issued. -/
theorem C8_no_match_no_call_witness :
    (∀ c ∈ [lonerRecord], c.startTime ≠ (7 : Int)) ∧
    cancelCallsForRow [lonerRecord] 7 = [] :=
  ⟨by decide, C8_no_match_no_call [lonerRecord] 7 (by decide)⟩

/-- Status filter used by the cancel flow: `view_contact(cancel=True)` fetches
with `get_contacts(gs_client, ["SCHEDULED"])` (`contact-control.py:666-667`). -/
def cancelStatusFilter : List String := ["SCHEDULED"]

/-- Status filter of the plain view flow (`contact-control.py:669-684`). -/
def viewStatusFilter : List String :=
  ["SCHEDULED", "SCHEDULING", "FAILED_TO_SCHEDULE", "AWS_CANCELLED",
   "CANCELLED", "COMPLETED", "FAILED", "AWS_CANCELLED", "AWS_FAILED",
   "CANCELLED", "FAILED_TO_SCHEDULE"]

/-- Fetch performed by `view_contact` (`contact-control.py:662-684`): the API
(abstracted as a function from the status filter to the fetched records) is
queried with `["SCHEDULED"]` when called from the cancel flow and with the
full status list otherwise. -/
def viewContactFetch (api : List String → List ContactRecord) (cancel : Bool) :
    List ContactRecord :=
  if cancel then api cancelStatusFilter else api viewStatusFilter

/-- Cancellation calls issued by `cancel_contact` (`contact-control.py:736-887`):
the fetched list comes from `view_contact(gs_client, cancel=True)`, and each
selected row (represented by its parsed start timestamp) contributes the
calls of the inner reconciliation loop, in order. -/
def cancelContactCalls (api : List String → List ContactRecord)
    (targets : List Int) : List String :=
  targets.foldl
    (fun calls t => calls ++ cancelCallsForRow (viewContactFetch api true) t) []

/-- Accumulator-generalised form of the outer cancellation loop. -/
theorem cancelContactCalls_go (fetched : List ContactRecord)
    (targets : List Int) (calls : List String) :
    targets.foldl (fun calls t => calls ++ cancelCallsForRow fetched t) calls =
      calls ++ targets.flatMap (fun t => cancelCallsForRow fetched t) := by
  induction targets generalizing calls with
  | nil => simp
  | cons t ts ih =>
    rw [List.foldl_cons, ih]
    simp

/-- C10: every cancellation API call issued by the program targets the
contactId of a record fetched with the status filter `["SCHEDULED"]`
(the cancel flow's fetch); the program never requests cancellation of a
contact fetched in any other status. -/
theorem C10_cancel_only_scheduled (api : List String → List ContactRecord)
    (targets : List Int) (cid : String)
    (h : cid ∈ cancelContactCalls api targets) :
    ∃ c ∈ api cancelStatusFilter, c.contactId = cid := by
  rw [cancelContactCalls, cancelContactCalls_go] at h
  rw [List.nil_append, List.mem_flatMap] at h
  obtain ⟨t, _ht, hmem⟩ := h
  obtain ⟨c, hc, _hstart, hcid⟩ :=
    mem_cancelCallsForRow (viewContactFetch api true) t cid hmem
  exact ⟨c, hc, hcid⟩

/-- A record in SCHEDULED status, as fetched by the cancel flow. -/
def schedRecord : ContactRecord :=
  { startTime := 3, endTime := 900, maxElevation := 60,
    groundStation := "Ohio 1", region := "us-east-2",
    contactStatus := "SCHEDULED", contactId := "contact-S1" }

/-- A toy API: the SCHEDULED fetch returns `[schedRecord]`; any other status
filter returns nothing. -/
def demoApi (statusList : List String) : List ContactRecord :=
  if statusList = cancelStatusFilter then [schedRecord] else []

/-- Witness for C10: the call issued for a selected row with start time 3
targets `contact-S1`, which the SCHEDULED fetch returned. -/
theorem C10_cancel_only_scheduled_witness :
    "contact-S1" ∈ cancelContactCalls demoApi [3] ∧
    ∃ c ∈ demoApi cancelStatusFilter, c.contactId = "contact-S1" :=
  ⟨by decide, C10_cancel_only_scheduled demoApi [3] "contact-S1" (by decide)⟩

/-- Acceptance of `ElevationValidator` (`contact-control.py:381-388`): the
input passes validation exactly when `regex.match("^[1-8][0-9]?$|^90$", text)`
succeeds. The input is modelled by its list of characters; the regex,
anchored at both ends (on newline-free interactive input), accepts one
character in `1`-`8`, or such a character followed by a digit, or the
two-character input `90`. -/
def elevationAccepts : List Char → Bool
  | [c] => decide ('1' ≤ c) && decide (c ≤ '8')
  | [c, d] =>
      (decide ('1' ≤ c) && decide (c ≤ '8') && decide ('0' ≤ d) && decide (d ≤ '9'))
        || (decide (c = '9') && decide (d = '0'))
  | _ => false

/-- C9: the elevation validator rejects the input `"9"`, although 9 is an
integer in the documented range 1-90 (the validator's own message promises
`[1-90]`); the regex `^[1-8][0-9]?$|^90$` omits the single digit 9. -/
theorem C9_rejects_nine :
    elevationAccepts ['9'] = false ∧ (1 : Nat) ≤ 9 ∧ (9 : Nat) ≤ 90 := by
  decide

end ContactControl
